import Mathlib

/-!
Shallow embedding of the build-bot repository (build-bot.py, build-rom.py,
build-kernel.py, utils.py): the progress-line regex, the build loops with
their ninja gate and cadence check, the failure tail, the upload aggregation,
the notifier helpers and the interrupt handler, together with theorems that
check the specification claims against these definitions.
-/

namespace BuildBot

/-! ## Character classes of the Python regular expression

The progress pattern in build-bot.py line 228 and utils.py line 93 is
`\[\s*(\d+%)\s+(\d+/\d+)(?: (.*?remaining))?.*\]`, applied with `re.search`
to log lines (ASCII text). -/

/-- Regex class for a decimal digit, on ASCII text. -/
def isDigitC (c : Char) : Bool := decide ('0' ≤ c) && decide (c ≤ '9')

/-- Regex class for whitespace, on ASCII text: space, tab, LF, CR, VT, FF.
Python str.strip() strips the same set. -/
def isPySpace (c : Char) : Bool :=
  c == ' ' || c == '\t' || c == '\n' || c == '\r' || c == '\x0b' || c == '\x0c'

/-- A character the regex dot can consume (anything but a newline). -/
def isDotChar (c : Char) : Bool := !(c == '\n')

/-- Python substring membership, the `in` operator on str. -/
def substrIn (needle : List Char) : List Char → Bool
  | [] => needle.isEmpty
  | c :: rest => List.isPrefixOf needle (c :: rest) || substrIn needle rest

/-- First occurrence of `pat` in a text: returns the part strictly before the
occurrence and the part strictly after it.  Used for the lazy
group `.*?remaining`, which stops at the earliest occurrence of the literal
word.  Intended for a non-empty `pat`. -/
def findSub (pat : List Char) : List Char → Option (List Char × List Char)
  | [] => none
  | c :: rest =>
    if List.isPrefixOf pat (c :: rest) then some ([], List.drop pat.length (c :: rest))
    else
      match findSub pat rest with
      | some pr => some (c :: pr.1, pr.2)
      | none => none

/-- Whether `.*\]` can match from this position: some closing bracket occurs
before the first newline. -/
def hasRBracket : List Char → Bool
  | [] => false
  | c :: rest => if c == ']' then true else if c == '\n' then false else hasRBracket rest

/-! ## Python str.replace and str.strip -/

/-- Fuel-driven worker for Python str.replace: replaces non-overlapping
occurrences of `pat` left to right.  For a non-empty `pat`, fuel equal to the
length of the text is always sufficient, since every step consumes at least
one character. -/
def replaceAllGo (pat rep : List Char) : Nat → List Char → List Char
  | 0, s => s
  | _ + 1, [] => []
  | fuel + 1, c :: rest =>
    if List.isPrefixOf pat (c :: rest) then
      rep ++ replaceAllGo pat rep fuel (List.drop pat.length (c :: rest))
    else
      c :: replaceAllGo pat rep fuel rest

/-- Python str.replace(pat, rep) for a non-empty pattern. -/
def replaceAll (s pat rep : List Char) : List Char := replaceAllGo pat rep s.length s

/-- Python str.strip() with no argument: drop whitespace from both ends. -/
def pyStrip (s : List Char) : List Char :=
  ((s.dropWhile isPySpace).reverse.dropWhile isPySpace).reverse

/-! ## Text constants taken from the source -/

/-- The literal word matched at the end of the lazy regex group. -/
def remainingWord : List Char := "remaining".data

/-- The literal removed by the cleanup in utils.py line 114 and
build-bot.py line 254: note the leading space. -/
def spaceRemaining : List Char := " remaining".data

/-- The gate substring checked in build-bot.py line 237 and utils.py line 101. -/
def gateMarker : List Char := "Starting ninja...".data

/-- The cleanup applied to the captured ETA text: drop every occurrence of
the ten-character literal (space plus the word) and strip the rest,
utils.py lines 113-116 and build-bot.py lines 253-254. -/
def cleanTime (s : List Char) : List Char := pyStrip (replaceAll s spaceRemaining [])

/-! ## The progress regex

`matchProgress` matches the pattern anchored at one position and `regexSearch`
scans for the leftmost matching position, following the exact backtracking
behaviour of the pattern: the character classes before each mandatory literal
are disjoint from it, so maximal munch is faithful; the optional group is
preferred when it can match; the lazy group stops at the first occurrence of
the literal word (later occurrences can only fail the trailing bracket check
whenever the first one does). -/

/-- Match `\[\s*(\d+%)\s+(\d+/\d+)(?: (.*?remaining))?.*\]` at the start of
`s`.  Returns (group 1, group 2, optional group 3). -/
def matchProgress (s : List Char) : Option (List Char × List Char × Option (List Char)) :=
  match s with
  | '[' :: s1 =>
    let s2 := s1.dropWhile isPySpace
    let d1 := s2.takeWhile isDigitC
    let s3 := s2.dropWhile isDigitC
    if d1 = [] then none else
    match s3 with
    | '%' :: s4 =>
      let sp := s4.takeWhile isPySpace
      let s5 := s4.dropWhile isPySpace
      if sp = [] then none else
      let d2 := s5.takeWhile isDigitC
      let s6 := s5.dropWhile isDigitC
      if d2 = [] then none else
      match s6 with
      | '/' :: s7 =>
        let d3 := s7.takeWhile isDigitC
        let s8 := s7.dropWhile isDigitC
        if d3 = [] then none else
        let g1 := d1 ++ ['%']
        let g2 := d2 ++ '/' :: d3
        match s8 with
        | ' ' :: s9 =>
          match findSub remainingWord s9 with
          | some pr =>
            if pr.1.all isDotChar && hasRBracket pr.2 then
              some (g1, g2, some (pr.1 ++ remainingWord))
            else if hasRBracket s8 then some (g1, g2, none) else none
          | none => if hasRBracket s8 then some (g1, g2, none) else none
        | _ => if hasRBracket s8 then some (g1, g2, none) else none
      | _ => none
    | _ => none
  | _ => none

/-- Python re.search: try every position left to right. -/
def regexSearch : List Char → Option (List Char × List Char × Option (List Char))
  | [] => none
  | c :: rest =>
    match matchProgress (c :: rest) with
    | some r => some r
    | none => regexSearch rest

/-- The structured progress record distilled from one matching line:
percent group, completed-of-total group, and the cleaned ETA text. -/
structure ProgressRecord where
  percent : List Char
  completedOfTotal : List Char
  eta : Option (List Char)
deriving DecidableEq

/-- The progress extraction shared by build-bot.py lines 228-255 and
utils.py lines 93-119: regex search followed by the trailing-word cleanup
on the captured ETA group. -/
def extractProgress (l : List Char) : Option ProgressRecord :=
  match regexSearch l with
  | none => none
  | some g => some ⟨g.1, g.2.1, Option.map cleanTime g.2.2⟩

/-- The line of end-to-end scenario 1 of the specification. -/
def sampleLine1 : List Char := "[ 45% 1200/2669 remaining: 12 mins]".data

/-- The shape the build tool actually emits, with the word after the ETA. -/
def sampleLine2 : List Char := "[ 45% 1200/2669 12 mins remaining]".data

/-! ## The build loops

Both build loops consume the child process output line by line.  Each
consumed line is modelled together with the wall-clock value that
`time.time()` returns while that line is handled; times are rationals.
The loop state mirrors the local variables `ninja_started` and
`last_update`, and accumulates the message edits performed. -/

/-- A chat destination: the primary chat or the error chat
(`CONFIG_ERROR_CHATID`). -/
inductive Chat where
  | primary
  | error
deriving DecidableEq

/-- The remote-message operations the scripts perform, in order. -/
inductive REvent where
  /-- The initial send_msg before the loop starts. -/
  | sendStart
  /-- An in-loop edit showing progress groups and ETA, at wall time t. -/
  | progressRender (pct cnt : List Char) (eta : Option (List Char)) (t : ℚ)
  /-- An in-loop edit showing only elapsed time (kernel-style builds), at wall time t. -/
  | elapsedRender (t : ℚ)
  /-- The edit to the build-failure message. -/
  | failRender
  /-- A sendDocument call with the given file path and destination. -/
  | sendDocument (path : List Char) (chat : Chat)
  /-- A sys.exit with the given code. -/
  | exitProc (code : Nat)
  /-- The edit to the build-success message (utils.py wraps it with the
  uploading banner in the same edit). -/
  | successRender
deriving DecidableEq

/-- The wall time carried by an in-loop (cadence-gated) render, if any. -/
def renderTime : REvent → Option ℚ
  | REvent.progressRender _ _ _ t => some t
  | REvent.elapsedRender t => some t
  | _ => none

/-- Times of the in-loop renders of an event list, in order. -/
def renderTimes (evs : List REvent) : List ℚ := evs.filterMap renderTime

/-- Whether an event is an in-loop progress render. -/
def isProgressRender : REvent → Bool
  | REvent.progressRender _ _ _ _ => true
  | _ => false

/-- State of a build loop: the `ninja_started` flag, the `last_update`
timestamp, and the edits performed so far. -/
structure LoopState where
  ninjaStarted : Bool
  lastUpdate : ℚ
  events : List REvent
deriving DecidableEq

/-- The gate update both loops perform first on each consumed line: set
`ninja_started` when the line contains the marker (utils.py lines 101-102,
build-bot.py lines 237-238). -/
def gateUpdate (st : LoopState) (l : List Char) : LoopState :=
  if substrIn gateMarker l then { st with ninjaStarted := true } else st

/-- One iteration of BuildRunner.run (utils.py lines 96-141) on a consumed
line with its wall-clock sample: for a ROM build, open the gate on the marker,
search the regex, and render when the gate is open and more than 15 seconds
passed since the last update; otherwise render elapsed time on the same
cadence. -/
def runnerStep (isRom : Bool) (st : LoopState) (item : List Char × ℚ) : LoopState :=
  if isRom then
    let st1 := gateUpdate st item.1
    match regexSearch item.1 with
    | some g =>
      if st1.ninjaStarted = true then
        if item.2 - st1.lastUpdate > 15 then
          { st1 with
            lastUpdate := item.2,
            events := st1.events ++
              [REvent.progressRender g.1 g.2.1 (Option.map cleanTime g.2.2) item.2] }
        else st1
      else st1
    | none => st1
  else
    if item.2 - st.lastUpdate > 15 then
      { st with
        lastUpdate := item.2,
        events := st.events ++ [REvent.elapsedRender item.2] }
    else st

/-- The whole BuildRunner.run loop: `ninja_started = not self.is_rom`
(utils.py line 92), `last_update = 0`, fold over the consumed lines. -/
def runnerLoop (isRom : Bool) (trace : List (List Char × ℚ)) : LoopState :=
  trace.foldl (runnerStep isRom) ⟨!isRom, 0, []⟩

/-- One iteration of the build loop of build-bot.py main (lines 233-264):
same gate and regex, cadence threshold 20 seconds. -/
def botStep (st : LoopState) (item : List Char × ℚ) : LoopState :=
  let st1 := gateUpdate st item.1
  match regexSearch item.1 with
  | some g =>
    if st1.ninjaStarted = true then
      if item.2 - st1.lastUpdate > 20 then
        { st1 with
          lastUpdate := item.2,
          events := st1.events ++
            [REvent.progressRender g.1 g.2.1 (Option.map cleanTime g.2.2) item.2] }
      else st1
    else st1
  | none => st1

/-- The build loop of build-bot.py main: `ninja_started = False`,
`last_update = 0` (lines 229-230). -/
def botLoop (trace : List (List Char × ℚ)) : LoopState :=
  trace.foldl botStep ⟨false, 0, []⟩

/-- Path of the dedicated error artifact of ROM builds. -/
def outErrorLog : List Char := "out/error.log".data

/-- Default build log file name. -/
def buildLogName : List Char := "build.log".data

/-- The log chosen for the failure document, utils.py lines 157-161:
out/error.log for a ROM build when that file exists, the build log
otherwise. -/
def errorLogChoice (isRom errExists : Bool) (logFile : List Char) : List Char :=
  if isRom && errExists then outErrorLog else logFile

/-- BuildRunner.run end to end (utils.py lines 75-169): the start message,
the loop edits, then the tail on the child exit code: on a non-zero code the
failure edit, the document to the error chat and sys.exit(1); on zero the
success edit (wrapped with the uploading banner). -/
def runnerRun (isRom : Bool) (trace : List (List Char × ℚ)) (rc : Int)
    (errExists : Bool) (logFile : List Char) : List REvent :=
  REvent.sendStart :: (runnerLoop isRom trace).events ++
    (if rc ≠ 0 then
      [REvent.failRender,
       REvent.sendDocument (errorLogChoice isRom errExists logFile) Chat.error,
       REvent.exitProc 1]
    else [REvent.successRender])

/-- build-bot.py main, lines 210-280: the start message, the loop edits, then
the failure tail on a non-zero exit code (the zero-code upload tail of lines
282-320 is modelled separately by botUploadPhase). -/
def botRun (trace : List (List Char × ℚ)) (rc : Int) (errExists : Bool) : List REvent :=
  REvent.sendStart :: (botLoop trace).events ++
    (if rc ≠ 0 then
      [REvent.failRender,
       REvent.sendDocument (if errExists then outErrorLog else buildLogName) Chat.error,
       REvent.exitProc 1]
    else [])

/-! ## Upload aggregation (utils.py upload_all and upload_artifacts,
build-rom.py main lines 105-153)

The two provider clients are modelled as oracles from a file path to an
optional link, exactly the value upload_pd and upload_gofile return; file
existence is an oracle as well. -/

/-- utils.upload_all (lines 363-374): submit the PixelDrain upload always and
the GoFile upload when enabled, and collect both results independently; one
provider returning no link never affects the other. -/
def uploadAll (pdF gfF : String → Option String) (useGofile : Bool) (path : String) :
    Option String × Option String :=
  (pdF path, if useGofile then gfF path else none)

/-- Button-label suffix for a PixelDrain link. -/
def pdSuffix : String := " (PD)"

/-- Button-label suffix for a GoFile link. -/
def gfSuffix : String := " (GF)"

/-- The button row built for one file from its two provider results
(utils.py lines 184-196): one button per obtained link. -/
def rowOf (label : String) (uploads : Option String × Option String) :
    List (String × String) :=
  (match uploads.1 with
   | some u => [(label ++ pdSuffix, u)]
   | none => []) ++
  (match uploads.2 with
   | some u => [(label ++ gfSuffix, u)]
   | none => [])

/-- The button row the upload loop produces for one labelled file. -/
def providerRow (pdF gfF : String → Option String) (useGofile : Bool)
    (label path : String) : List (String × String) :=
  rowOf label (uploadAll pdF gfF useGofile path)

/-- Accumulator of the upload loop: the collected button rows and the
`main_file_uploaded` flag. -/
structure UpAcc where
  buttons : List (List (String × String))
  mainUploaded : Bool
deriving DecidableEq

/-- One iteration of the upload loop of utils.upload_artifacts (lines
177-196): skip a falsy or missing path; otherwise upload on all enabled
providers, build the button row, record whether the designated primary
artifact obtained a link, and append the row when non-empty. -/
def uploadStep (pdF gfF : String → Option String) (ex : String → Bool)
    (useGofile : Bool) (finalZip : String) (st : UpAcc) (item : String × String) : UpAcc :=
  if item.2 = "" ∨ ex item.2 = false then st
  else
    let uploads := uploadAll pdF gfF useGofile item.2
    let currentRow := rowOf item.1 uploads
    let newMain := st.mainUploaded
      || (uploads.1.isSome && item.2 == finalZip)
      || (uploads.2.isSome && item.2 == finalZip)
    { buttons := if currentRow = [] then st.buttons else st.buttons ++ [currentRow],
      mainUploaded := newMain }

/-- Result of utils.upload_artifacts: either the distinct upload-failure edit,
or the final message edit carrying the button rows (None when no row). -/
inductive UploadOutcome where
  | uploadFail
  | finalMsg (buttons : Option (List (List (String × String))))
deriving DecidableEq

/-- utils.upload_artifacts (lines 172-224): fold the upload loop over the
labelled files, then edit the upload-failure variant when the primary
artifact obtained no link from any provider, and the final message with the
collected buttons otherwise.  The function returns in both cases; it never
exits the process. -/
def upload_artifacts (pdF gfF : String → Option String) (ex : String → Bool)
    (useGofile : Bool) (files : List (String × String)) (finalZip : String) :
    UploadOutcome :=
  let st := files.foldl (uploadStep pdF gfF ex useGofile finalZip) ⟨[], false⟩
  if st.mainUploaded = false then UploadOutcome.uploadFail
  else UploadOutcome.finalMsg (if st.buttons = [] then none else some st.buttons)

/-- build-rom.py main after the build (lines 105-153): when no final zip was
located, the upload-failure edit and sys.exit(1); otherwise the call to
upload_artifacts is the last statement of main, so the interpreter exits with
code 0 whatever that call renders. -/
def romMainPostBuild (pdF gfF : String → Option String) (ex : String → Bool)
    (useGofile : Bool) (finalZipFound : Option String)
    (files : List (String × String)) : UploadOutcome × Nat :=
  match finalZipFound with
  | none => (UploadOutcome.uploadFail, 1)
  | some z => (upload_artifacts pdF gfF ex useGofile files z, 0)

/-- Final render of the upload tail of build-bot.py main (lines 282-320). -/
inductive BotFinal where
  /-- The Build Complete edit; the PixelDrain field always carries the string
  upload_pd returned, which is the sentinel text on failure. -/
  | complete (pdLink : String) (gfLink : Option String)
  /-- The No-ZIP edit. -/
  | noZip
deriving DecidableEq

/-- build-bot.py main after a zero exit code (lines 282-320): exit 1 when no
zip is found; otherwise upload and always render the Build Complete message
with whatever strings the providers returned, then main returns, so the
process exits 0.  There is no upload-failure variant on this path. -/
def botUploadPhase (zipFound : Bool) (pdLink : String) (gfLink : Option String) :
    BotFinal × Nat :=
  if zipFound = false then (BotFinal.noZip, 1)
  else (BotFinal.complete pdLink gfLink, 0)

/-! ## Provider HTTP calls (claim C9)

Each provider helper is modelled as the list of HTTP requests it issues,
with the timeout each request carries, plus the value returned to the
caller.  Responses are oracles: `none` models a raised transport exception,
`some` a response with its status code and the payload field read from it. -/

/-- One HTTP request with the timeout passed to the requests library
(`none` when the call sets no timeout). -/
structure HttpCall where
  url : List Char
  timeout : Option Nat
deriving DecidableEq

/-- Python os.path.basename for a plain file path: the part after the last
slash. -/
def baseName (p : List Char) : List Char :=
  (List.takeWhile (fun c => !(c == '/')) p.reverse).reverse

/-- PixelDrain API base used by utils.upload_pd (the file name is appended). -/
def pixeldrainApiBase : List Char := "https://pixeldrain.com/api/file/".data

/-- Link base for a completed PixelDrain upload. -/
def pdLinkBase : List Char := "https://pixeldrain.com/u/".data

/-- GoFile server-discovery endpoint. -/
def goServersUrl : List Char := "https://api.gofile.io/servers".data

/-- Scheme text for the GoFile upload host. -/
def httpsPre : List Char := "https://".data

/-- Path suffix of the GoFile upload endpoint. -/
def goUploadSuffix : List Char := ".gofile.io/uploadFile".data

/-- The sentinel text build-bot.py returns on a failed upload. -/
def uploadFailedStr : List Char := "Upload failed".data

/-- utils.upload_pd (lines 309-335): no call without an API key; otherwise a
PUT with timeout 300; every exception and every non-200/201 status yields
None. -/
def utilsUploadPd (pdApi : Option (List Char)) (path : List Char)
    (resp : Option (Nat × List Char)) : List HttpCall × Option (List Char) :=
  match pdApi with
  | none => ([], none)
  | some _ =>
    let call : HttpCall := ⟨pixeldrainApiBase ++ baseName path, some 300⟩
    match resp with
    | none => ([call], none)
    | some (status, fid) =>
      if status = 200 ∨ status = 201 then ([call], some (pdLinkBase ++ fid))
      else ([call], none)

/-- utils.upload_gofile (lines 339-359): a GET on the servers endpoint with
no timeout, then on an ok payload a POST to the chosen server with timeout
300; every exception and every non-200 status yields None. -/
def utilsUploadGofile (serversResp : Option (Bool × List Char))
    (uploadResp : Option (Nat × List Char)) : List HttpCall × Option (List Char) :=
  let serverCall : HttpCall := ⟨goServersUrl, none⟩
  match serversResp with
  | none => ([serverCall], none)
  | some (ok, server) =>
    if ok = false then ([serverCall], none)
    else
      let upCall : HttpCall := ⟨httpsPre ++ server ++ goUploadSuffix, some 300⟩
      match uploadResp with
      | none => ([serverCall, upCall], none)
      | some (status, page) =>
        if status = 200 then ([serverCall, upCall], some page)
        else ([serverCall, upCall], none)

/-- build-bot.py upload_pd (lines 133-147): a PUT on the fixed API URL with
NO timeout argument; a 200 status yields the link and every other outcome
yields the sentinel string, never an absent value. -/
def buildBotUploadPd (_path : List Char) (resp : Option (Nat × List Char)) :
    List HttpCall × List Char :=
  let call : HttpCall := ⟨pixeldrainApiBase, none⟩
  match resp with
  | none => ([call], uploadFailedStr)
  | some (status, fid) =>
    if status = 200 then ([call], pdLinkBase ++ fid)
    else ([call], uploadFailedStr)

/-! ## Document sending (claim C10) -/

/-- Telegram sendDocument endpoint (token elided). -/
def sendDocumentUrl : List Char := "sendDocument".data

/-- utils.send_doc (lines 296-305): nothing without a chat id; nothing when
the file does not exist; otherwise one tg_req call (timeout 30 inside
utils.tg_req). -/
def utilsSendDoc (ex : List Char → Bool) (chatId : Option (List Char))
    (path : List Char) : List HttpCall :=
  match chatId with
  | none => []
  | some _ => if ex path then [⟨sendDocumentUrl, some 30⟩] else []

/-- build-bot.py send_doc (lines 111-118): nothing when the file does not
exist; otherwise one tg_req call (timeout 20 inside its tg_req). -/
def buildBotSendDoc (ex : List Char → Bool) (path : List Char) : List HttpCall :=
  if ex path then [⟨sendDocumentUrl, some 20⟩] else []

/-! ## Interrupt handling (claim C7) -/

/-- Actions an interrupt path can perform.  remoteEdit is listed so that its
absence from a produced action list is a meaningful statement. -/
inductive HandlerAction where
  | printNote
  | terminateChild
  | graceSleep
  | killChild
  | remoteEdit
  | exitProgram (code : Nat)
deriving DecidableEq

/-- The handler registered by utils.register_signal_handler (lines 380-390):
print a note; when a process exists and poll() reports it alive, terminate
it, sleep one second, and kill it when still alive; then sys.exit(0).
`alive1` is the poll result at entry, `alive2` after the grace sleep. -/
def sigintHandlerActions (procExists alive1 alive2 : Bool) : List HandlerAction :=
  HandlerAction.printNote ::
    (if procExists && alive1 then
      HandlerAction.terminateChild :: HandlerAction.graceSleep ::
        (if alive2 then [HandlerAction.killChild] else [])
    else []) ++ [HandlerAction.exitProgram 0]

/-- build-bot.py installs no signal handler; its main guard (lines 323-327)
catches KeyboardInterrupt, prints a note and falls off the end of the script:
the child process is not terminated and no further request is made. -/
def buildBotInterruptActions : List HandlerAction := [HandlerAction.printNote]

/-! ## Escaping and the static info block (claim C8) -/

/-- Pattern: the ampersand character. -/
def ampPat : List Char := ['&']

/-- Pattern: the less-than character. -/
def ltPat : List Char := ['<']

/-- Pattern: the greater-than character. -/
def gtPat : List Char := ['>']

/-- Pattern: the double-quote character. -/
def quotPat : List Char := ['"']

/-- Pattern: the single-quote character. -/
def aposPat : List Char := [Char.ofNat 39]

/-- Replacement entity for the ampersand. -/
def ampRep : List Char := "&amp;".data

/-- Replacement entity for less-than. -/
def ltRep : List Char := "&lt;".data

/-- Replacement entity for greater-than. -/
def gtRep : List Char := "&gt;".data

/-- Replacement entity for the double quote. -/
def quotRep : List Char := "&quot;".data

/-- Replacement entity for the single quote. -/
def aposRep : List Char := "&#x27;".data

/-- Python html.escape with quote=True: replace the ampersand first, then the
angle brackets, then both quote characters. -/
def htmlEscape (s : List Char) : List Char :=
  let s1 := replaceAll s ampPat ampRep
  let s2 := replaceAll s1 ltPat ltRep
  let s3 := replaceAll s2 gtPat gtRep
  let s4 := replaceAll s3 quotPat quotRep
  replaceAll s4 aposPat aposRep

/-- Markup before the label in the line helper. -/
def lineT1 : List Char := "<b>".data

/-- Markup between label and value in the line helper. -/
def lineT2 : List Char := ":</b> <code>".data

/-- Markup after the value in the line helper. -/
def lineT3 : List Char := "</code>".data

/-- The line helper shared by utils.py (line 236), build-bot.py (line 121)
and build-kernel.py (line 243): bold label, value escaped inside a code
span. -/
def line (label value : List Char) : List Char :=
  lineT1 ++ label ++ lineT2 ++ htmlEscape value ++ lineT3

/-- Template pieces of the static info block of build-rom.py main
(lines 88-94), which interpolates its five values raw. -/
def romT1 : List Char := "<b>Rom:</b> <code>".data

/-- Template between the ROM name and the device. -/
def romT2 : List Char := "</code>\n<b>Device:</b> <code>".data

/-- Template between the device and the Android version. -/
def romT3 : List Char := "</code>\n<b>Android:</b> <code>".data

/-- Template between the Android version and the build id. -/
def romT4 : List Char := "</code>\n<b>Build ID:</b> <code>".data

/-- Template between the build id and the variant. -/
def romT5 : List Char := "</code>\n<b>Type:</b> <code>".data

/-- Template closing the block. -/
def romT6 : List Char := "</code>".data

/-- The static info block of build-rom.py main (lines 88-94): a plain
f-string; none of the five values passes through html.escape. -/
def buildRomBaseInfo (romName device androidVer buildId variant : List Char) :
    List Char :=
  romT1 ++ romName ++ romT2 ++ device ++ romT3 ++ androidVer ++
    romT4 ++ buildId ++ romT5 ++ variant ++ romT6

/-- A device value carrying markup-significant characters. -/
def markupDevice : List Char := "<i>".data

/-- The escaped form of that value. -/
def markupDeviceEscaped : List Char := "&lt;i&gt;".data

/-- The raw code span that shows up when the value is not escaped. -/
def markupDeviceRawSpan : List Char := "<code><i></code>".data

/-- Sample ROM name for the counterexample. -/
def sampleRomName : List Char := "R".data

/-- Sample Android version for the counterexample. -/
def sampleAndroid : List Char := "14".data

/-- Sample build id for the counterexample. -/
def sampleBuildId : List Char := "B".data

/-- Sample build variant for the counterexample. -/
def sampleVariant : List Char := "user".data

/-- Percent group the specification scenario expects. -/
def expectedPct : List Char := "45%".data

/-- Completed-of-total group the specification scenario expects. -/
def expectedCnt : List Char := "1200/2669".data

/-- The ETA text the specification scenario expects. -/
def twelveMins : List Char := "12 mins".data

/-- A concrete primary-artifact path for witnesses. -/
def romZipName : String := "rom.zip"

/-- Label of the primary artifact in build-rom.py (line 141). -/
def downloadLabel : String := "Download"

/-- Label of the secondary recovery artifact in build-rom.py (line 143). -/
def recoveryLabel : String := "Recovery"

/-- A concrete secondary-artifact path for witnesses. -/
def recZipName : String := "rec.zip"

/-- A concrete link for witnesses. -/
def wPdLink : String := "https://pixeldrain.com/u/x"

/-- Witness provider oracle: PixelDrain succeeds on the primary artifact only. -/
def wPd : String → Option String := fun p => if p == romZipName then some wPdLink else none

/-- Witness provider oracle: GoFile always fails. -/
def wGf : String → Option String := fun _ => none

/-- Witness existence oracle: every file exists. -/
def wEx : String → Bool := fun _ => true

/-- The sentinel text build-bot.py returns on a failed upload, as a String. -/
def uploadFailedString : String := "Upload failed"

/-- A concrete file path for witnesses on the HTTP models. -/
def sampleZipPath : List Char := "out/rom.zip".data

/-- A concrete API key for witnesses. -/
def sampleApiKey : List Char := "k".data

/-- A concrete file id for witnesses. -/
def sampleFid : List Char := "abc".data

/-- A concrete chat id for witnesses. -/
def sampleChatId : List Char := "123".data

/-- Cadence invariant of a build loop: the recorded in-loop render times are
spaced by strictly more than `q`, and the last one (when present) equals the
`last_update` variable. -/
def CadInv (q : ℚ) (evs : List REvent) (lu : ℚ) : Prop :=
  List.Chain' (fun a b => q < b - a) (renderTimes evs) ∧
    ∀ t ∈ (renderTimes evs).getLast?, t = lu

/-! ## Helper lemmas -/

theorem renderTimes_append (a b : List REvent) :
    renderTimes (a ++ b) = renderTimes a ++ renderTimes b := by
  simp [renderTimes, List.filterMap_append]

theorem CadInv_nil (q : ℚ) : CadInv q [] 0 := by
  constructor
  · simp [renderTimes]
  · intro t ht
    simp [renderTimes] at ht

theorem CadInv_snoc (q lu now : ℚ) (evs : List REvent) (ev : REvent)
    (hev : renderTime ev = some now) (hgt : q < now - lu)
    (h : CadInv q evs lu) : CadInv q (evs ++ [ev]) now := by
  have hrt : renderTimes (evs ++ [ev]) = renderTimes evs ++ [now] := by
    rw [renderTimes_append]
    simp [renderTimes, hev]
  constructor
  · rw [hrt, List.chain'_append]
    refine ⟨h.1, List.chain'_singleton _, ?_⟩
    intro x hx y hy
    simp only [List.head?_cons, Option.mem_def, Option.some.injEq] at hy
    subst hy
    have hx' := h.2 x hx
    subst hx'
    exact hgt
  · intro t ht
    rw [hrt] at ht
    rw [List.getLast?_concat] at ht
    simp only [Option.mem_def, Option.some.injEq] at ht
    exact ht.symm

theorem gateUpdate_events (st : LoopState) (l : List Char) :
    (gateUpdate st l).events = st.events := by
  unfold gateUpdate; split <;> rfl

theorem gateUpdate_lastUpdate (st : LoopState) (l : List Char) :
    (gateUpdate st l).lastUpdate = st.lastUpdate := by
  unfold gateUpdate; split <;> rfl

theorem CadInv_gateUpdate (q : ℚ) (st : LoopState) (l : List Char)
    (h : CadInv q st.events st.lastUpdate) :
    CadInv q (gateUpdate st l).events (gateUpdate st l).lastUpdate := by
  rw [gateUpdate_events, gateUpdate_lastUpdate]; exact h

theorem CadInv_runnerStep (isRom : Bool) (st : LoopState) (item : List Char × ℚ)
    (h : CadInv 15 st.events st.lastUpdate) :
    CadInv 15 (runnerStep isRom st item).events (runnerStep isRom st item).lastUpdate := by
  have h1 := CadInv_gateUpdate 15 st item.1 h
  unfold runnerStep
  by_cases hisrom : isRom
  · rw [if_pos hisrom]
    cases hr : regexSearch item.1 with
    | none => exact h1
    | some g =>
      simp only []
      by_cases hn : (gateUpdate st item.1).ninjaStarted = true
      · rw [if_pos hn]
        by_cases hgt : item.2 - (gateUpdate st item.1).lastUpdate > 15
        · rw [if_pos hgt]
          exact CadInv_snoc 15 (gateUpdate st item.1).lastUpdate item.2
            (gateUpdate st item.1).events _ rfl hgt h1
        · rw [if_neg hgt]; exact h1
      · rw [if_neg hn]; exact h1
  · rw [if_neg hisrom]
    by_cases hgt : item.2 - st.lastUpdate > 15
    · rw [if_pos hgt]
      exact CadInv_snoc 15 st.lastUpdate item.2 st.events _ rfl hgt h
    · rw [if_neg hgt]; exact h

theorem CadInv_runnerFold (isRom : Bool) :
    ∀ (trace : List (List Char × ℚ)) (st : LoopState),
      CadInv 15 st.events st.lastUpdate →
      CadInv 15 (trace.foldl (runnerStep isRom) st).events
        (trace.foldl (runnerStep isRom) st).lastUpdate := by
  intro trace
  induction trace with
  | nil => intro st h; simpa using h
  | cons it rest ih =>
    intro st h
    simpa using ih _ (CadInv_runnerStep isRom st it h)

theorem CadInv_botStep (st : LoopState) (item : List Char × ℚ)
    (h : CadInv 20 st.events st.lastUpdate) :
    CadInv 20 (botStep st item).events (botStep st item).lastUpdate := by
  have h1 := CadInv_gateUpdate 20 st item.1 h
  unfold botStep
  cases hr : regexSearch item.1 with
  | none => exact h1
  | some g =>
    simp only []
    by_cases hn : (gateUpdate st item.1).ninjaStarted = true
    · rw [if_pos hn]
      by_cases hgt : item.2 - (gateUpdate st item.1).lastUpdate > 20
      · rw [if_pos hgt]
        exact CadInv_snoc 20 (gateUpdate st item.1).lastUpdate item.2
          (gateUpdate st item.1).events _ rfl hgt h1
      · rw [if_neg hgt]; exact h1
    · rw [if_neg hn]; exact h1

theorem CadInv_botFold :
    ∀ (trace : List (List Char × ℚ)) (st : LoopState),
      CadInv 20 st.events st.lastUpdate →
      CadInv 20 (trace.foldl botStep st).events (trace.foldl botStep st).lastUpdate := by
  intro trace
  induction trace with
  | nil => intro st h; simpa using h
  | cons it rest ih =>
    intro st h
    simpa using ih _ (CadInv_botStep st it h)

theorem gateUpdate_gateClosed (st : LoopState) (l : List Char)
    (hg : substrIn gateMarker l = false) : gateUpdate st l = st := by
  unfold gateUpdate
  rw [hg]
  rfl

theorem runnerStep_gateClosed (st : LoopState) (item : List Char × ℚ)
    (hg : substrIn gateMarker item.1 = false) (hn : st.ninjaStarted = false) :
    runnerStep true st item = st := by
  unfold runnerStep
  rw [if_pos rfl]
  rw [gateUpdate_gateClosed st item.1 hg]
  cases hr : regexSearch item.1 with
  | none => rfl
  | some g => simp [hn]

theorem botStep_gateClosed (st : LoopState) (item : List Char × ℚ)
    (hg : substrIn gateMarker item.1 = false) (hn : st.ninjaStarted = false) :
    botStep st item = st := by
  unfold botStep
  rw [gateUpdate_gateClosed st item.1 hg]
  cases hr : regexSearch item.1 with
  | none => rfl
  | some g => simp [hn]

theorem runnerFold_gateClosed :
    ∀ (trace : List (List Char × ℚ)) (st : LoopState),
      (∀ p ∈ trace, substrIn gateMarker p.1 = false) →
      st.ninjaStarted = false →
      trace.foldl (runnerStep true) st = st := by
  intro trace
  induction trace with
  | nil => intro st _ _; rfl
  | cons it rest ih =>
    intro st hg hn
    have h1 : runnerStep true st it = st :=
      runnerStep_gateClosed st it (hg it (List.mem_cons_self it rest)) hn
    simp only [List.foldl_cons, h1]
    exact ih st (fun p hp => hg p (List.mem_cons_of_mem it hp)) hn

theorem botFold_gateClosed :
    ∀ (trace : List (List Char × ℚ)) (st : LoopState),
      (∀ p ∈ trace, substrIn gateMarker p.1 = false) →
      st.ninjaStarted = false →
      trace.foldl botStep st = st := by
  intro trace
  induction trace with
  | nil => intro st _ _; rfl
  | cons it rest ih =>
    intro st hg hn
    have h1 : botStep st it = st :=
      botStep_gateClosed st it (hg it (List.mem_cons_self it rest)) hn
    simp only [List.foldl_cons, h1]
    exact ih st (fun p hp => hg p (List.mem_cons_of_mem it hp)) hn

theorem uploadStep_mainMono (pdF gfF : String → Option String) (ex : String → Bool)
    (useGofile : Bool) (finalZip : String) (st : UpAcc) (item : String × String)
    (h : st.mainUploaded = true) :
    (uploadStep pdF gfF ex useGofile finalZip st item).mainUploaded = true := by
  unfold uploadStep
  split
  · exact h
  · simp [h]

theorem uploadFold_mainMono (pdF gfF : String → Option String) (ex : String → Bool)
    (useGofile : Bool) (finalZip : String) :
    ∀ (l : List (String × String)) (st : UpAcc), st.mainUploaded = true →
      (l.foldl (uploadStep pdF gfF ex useGofile finalZip) st).mainUploaded = true := by
  intro l
  induction l with
  | nil => intro st h; simpa using h
  | cons it rest ih =>
    intro st h
    simpa using ih _ (uploadStep_mainMono pdF gfF ex useGofile finalZip st it h)

theorem uploadStep_buttonsExt (pdF gfF : String → Option String) (ex : String → Bool)
    (useGofile : Bool) (finalZip : String) (st : UpAcc) (item : String × String) :
    ∃ ext, (uploadStep pdF gfF ex useGofile finalZip st item).buttons = st.buttons ++ ext := by
  unfold uploadStep
  split
  · exact ⟨[], by simp⟩
  · by_cases hrow : rowOf item.1 (uploadAll pdF gfF useGofile item.2) = []
    · exact ⟨[], by simp [hrow]⟩
    · exact ⟨[rowOf item.1 (uploadAll pdF gfF useGofile item.2)], by simp [hrow]⟩

theorem uploadFold_buttonsExt (pdF gfF : String → Option String) (ex : String → Bool)
    (useGofile : Bool) (finalZip : String) :
    ∀ (l : List (String × String)) (st : UpAcc),
      ∃ ext, (l.foldl (uploadStep pdF gfF ex useGofile finalZip) st).buttons
        = st.buttons ++ ext := by
  intro l
  induction l with
  | nil => intro st; exact ⟨[], by simp⟩
  | cons it rest ih =>
    intro st
    obtain ⟨e1, h1⟩ := uploadStep_buttonsExt pdF gfF ex useGofile finalZip st it
    obtain ⟨e2, h2⟩ := ih (uploadStep pdF gfF ex useGofile finalZip st it)
    exact ⟨e1 ++ e2, by rw [List.foldl_cons, h2, h1, List.append_assoc]⟩

theorem mem_replaceAllGo (pat rep : List Char) (x : Char) :
    ∀ (fuel : Nat) (s : List Char), x ∈ replaceAllGo pat rep fuel s → x ∈ s ∨ x ∈ rep := by
  intro fuel
  induction fuel with
  | zero => intro s hx; exact Or.inl hx
  | succ n ih =>
    intro s hx
    cases s with
    | nil => simp [replaceAllGo] at hx
    | cons c rest =>
      rw [replaceAllGo] at hx
      split at hx
      · rcases List.mem_append.mp hx with h | h
        · exact Or.inr h
        · rcases ih _ h with h2 | h2
          · exact Or.inl (List.mem_of_mem_drop h2)
          · exact Or.inr h2
      · rcases List.mem_cons.mp hx with h | h
        · exact Or.inl (h ▸ List.mem_cons_self c rest)
        · rcases ih _ h with h2 | h2
          · exact Or.inl (List.mem_cons_of_mem c h2)
          · exact Or.inr h2

theorem not_mem_replaceAllGo_single (t : Char) (rep : List Char) (ht : t ∉ rep) :
    ∀ (fuel : Nat) (s : List Char), s.length ≤ fuel → t ∉ replaceAllGo [t] rep fuel s := by
  intro fuel
  induction fuel with
  | zero =>
    intro s hs
    have hnil : s = [] := List.eq_nil_of_length_eq_zero (Nat.le_zero.mp hs)
    subst hnil
    simp [replaceAllGo]
  | succ n ih =>
    intro s hs
    cases s with
    | nil => simp [replaceAllGo]
    | cons c rest =>
      have hl : rest.length ≤ n := Nat.le_of_succ_le_succ (by simpa using hs)
      rw [replaceAllGo]
      split
      case isTrue hp =>
        intro hmem
        rcases List.mem_append.mp hmem with h | h
        · exact ht h
        · have h' : t ∈ replaceAllGo [t] rep n rest := by simpa using h
          exact ih rest hl h'
      case isFalse hp =>
        intro hmem
        rcases List.mem_cons.mp hmem with h | h
        · apply hp
          subst h
          simp [List.isPrefixOf]
        · exact ih rest hl h

theorem replaceAll_elim (t : Char) (rep : List Char) (ht : t ∉ rep) (s : List Char) :
    t ∉ replaceAll s [t] rep :=
  not_mem_replaceAllGo_single t rep ht s.length s (le_refl _)

theorem replaceAll_preserve (t : Char) (s pat rep : List Char) (hs : t ∉ s) (hr : t ∉ rep) :
    t ∉ replaceAll s pat rep := by
  intro hx
  rcases mem_replaceAllGo pat rep t s.length s hx with h | h
  · exact hs h
  · exact hr h

theorem htmlEscape_no_lt (v : List Char) : '<' ∉ htmlEscape v := by
  have h2 : '<' ∉ replaceAll (replaceAll v ampPat ampRep) ltPat ltRep :=
    replaceAll_elim '<' ltRep (by decide) _
  have h3 := replaceAll_preserve '<' _ gtPat gtRep h2 (by decide)
  have h4 := replaceAll_preserve '<' _ quotPat quotRep h3 (by decide)
  exact replaceAll_preserve '<' _ aposPat aposRep h4 (by decide)

theorem htmlEscape_no_gt (v : List Char) : '>' ∉ htmlEscape v := by
  have h3 : '>' ∉ replaceAll (replaceAll (replaceAll v ampPat ampRep) ltPat ltRep) gtPat gtRep :=
    replaceAll_elim '>' gtRep (by decide) _
  have h4 := replaceAll_preserve '>' _ quotPat quotRep h3 (by decide)
  exact replaceAll_preserve '>' _ aposPat aposRep h4 (by decide)

/-! ## Claim theorems -/

/-- C1 counterexample: on the scenario line, the extraction does NOT yield
the ETA text claimed by the specification: the lazy group captures the bare
word before the colon, and the cleanup removes nothing from it. -/
theorem c1_counterexample :
    extractProgress sampleLine1 ≠
      some ⟨expectedPct, expectedCnt, some twelveMins⟩ := by
  decide

/-- C1 (amended): on the scenario line the extraction yields percent 45%,
completed-of-total 1200/2669, and ETA equal to the bare word of the pattern;
on a line of the shape the build tool actually emits, with the ETA text
before the word, it yields ETA 12 mins. -/
theorem c1_progress_extraction :
    extractProgress sampleLine1 =
      some ⟨expectedPct, expectedCnt, some remainingWord⟩ ∧
    extractProgress sampleLine2 =
      some ⟨expectedPct, expectedCnt, some twelveMins⟩ := by
  decide

/-- C2: in a ROM build, while no consumed line contains the gate substring,
no progress record is folded into the status or rendered, in the
BuildRunner loop and in the build-bot loop alike, even when lines match the
progress pattern. -/
theorem c2_gate_closed_no_progress (trace : List (List Char × ℚ))
    (hg : ∀ p ∈ trace, substrIn gateMarker p.1 = false) :
    List.filter isProgressRender (runnerLoop true trace).events = [] ∧
    List.filter isProgressRender (botLoop trace).events = [] := by
  have h1 : trace.foldl (runnerStep true) ⟨!true, 0, []⟩ = ⟨!true, 0, []⟩ :=
    runnerFold_gateClosed trace ⟨!true, 0, []⟩ hg rfl
  have h2 : trace.foldl botStep ⟨false, 0, []⟩ = ⟨false, 0, []⟩ :=
    botFold_gateClosed trace ⟨false, 0, []⟩ hg rfl
  constructor
  · rw [runnerLoop, h1]; rfl
  · rw [botLoop, h2]; rfl


/-- Witness for C2 on a concrete trace whose single line matches the
progress pattern but contains no gate marker. -/
theorem c2_witness :
    (∀ p ∈ [(sampleLine1, (100 : ℚ))], substrIn gateMarker p.1 = false) ∧
    (List.filter isProgressRender (runnerLoop true [(sampleLine1, (100 : ℚ))]).events = [] ∧
     List.filter isProgressRender (botLoop [(sampleLine1, (100 : ℚ))]).events = []) :=
  ⟨by decide, c2_gate_closed_no_progress [(sampleLine1, (100 : ℚ))] (by decide)⟩

/-- C3: in both build loops, consecutive in-loop (non-boundary) renders are
separated by at least the configured minimum cadence (15 seconds in
BuildRunner.run, 20 seconds in build-bot.py main), while the boundary
renders at build start, failure and success are emitted for every trace,
never suppressed by the cadence check. -/
theorem c3_cadence_and_boundaries (isRom : Bool) (trace : List (List Char × ℚ))
    (rc : Int) (errExists : Bool) (logFile : List Char) :
    List.Chain' (fun a b => 15 ≤ b - a) (renderTimes (runnerLoop isRom trace).events) ∧
    (runnerRun isRom trace rc errExists logFile).head? = some REvent.sendStart ∧
    (rc ≠ 0 → REvent.failRender ∈ runnerRun isRom trace rc errExists logFile) ∧
    (rc = 0 → REvent.successRender ∈ runnerRun isRom trace rc errExists logFile) ∧
    List.Chain' (fun a b => 20 ≤ b - a) (renderTimes (botLoop trace).events) ∧
    (botRun trace rc errExists).head? = some REvent.sendStart ∧
    (rc ≠ 0 → REvent.failRender ∈ botRun trace rc errExists) := by
  refine ⟨?_, rfl, ?_, ?_, ?_, rfl, ?_⟩
  · have h := CadInv_runnerFold isRom trace ⟨!isRom, 0, []⟩ (CadInv_nil 15)
    exact (h.1).imp (fun _ _ hab => le_of_lt hab)
  · intro hrc
    simp [runnerRun, hrc]
  · intro hrc
    simp [runnerRun, hrc]
  · have h := CadInv_botFold trace ⟨false, 0, []⟩ (CadInv_nil 20)
    exact (h.1).imp (fun _ _ hab => le_of_lt hab)
  · intro hrc
    simp [botRun, hrc]

/-- Witness for C3 at concrete exit codes 1 and 0. -/
theorem c3_witness :
    ((1 : Int) ≠ 0 ∧ REvent.failRender ∈ runnerRun true [] 1 false buildLogName) ∧
    ((0 : Int) = 0 ∧ REvent.successRender ∈ runnerRun true [] 0 false buildLogName) :=
  ⟨⟨by decide, (c3_cadence_and_boundaries true [] 1 false buildLogName).2.2.1 (by decide)⟩,
   ⟨rfl, (c3_cadence_and_boundaries true [] 0 false buildLogName).2.2.2.1 rfl⟩⟩

/-- C4: evaluation of the code at the failing input.  With the primary
artifact present but both providers returning no link, build-rom.py renders
the distinct upload-failure variant yet the process exit code is 0, because
upload_artifacts returns and main falls off the end; and on the parallel
build-bot.py path there is no upload-failure variant at all: the Build
Complete message carries the sentinel text and the process exits 0. -/
theorem c4_upload_fail_exit_zero :
    romMainPostBuild (fun _ => none) (fun _ => none) (fun _ => true) true
      (some romZipName) [(downloadLabel, romZipName)] = (UploadOutcome.uploadFail, 0) ∧
    botUploadPhase true uploadFailedString none =
      (BotFinal.complete uploadFailedString none, 0) := by
  constructor
  · rfl
  · rfl

/-- C6: whenever the child exits non-zero, both the BuildRunner tail and the
build-bot tail end with the failure edit, a sendDocument of the chosen log
(out/error.log for a ROM build when it exists, the build log otherwise) to
the error destination, and sys.exit(1). -/
theorem c6_failure_reporting (isRom : Bool) (trace : List (List Char × ℚ))
    (rc : Int) (errExists : Bool) (logFile : List Char) (hrc : rc ≠ 0) :
    [REvent.failRender,
     REvent.sendDocument (errorLogChoice isRom errExists logFile) Chat.error,
     REvent.exitProc 1] <:+ runnerRun isRom trace rc errExists logFile ∧
    [REvent.failRender,
     REvent.sendDocument (if errExists then outErrorLog else buildLogName) Chat.error,
     REvent.exitProc 1] <:+ botRun trace rc errExists := by
  constructor
  · exact ⟨REvent.sendStart :: (runnerLoop isRom trace).events, by simp [runnerRun, hrc]⟩
  · exact ⟨REvent.sendStart :: (botLoop trace).events, by simp [botRun, hrc]⟩

/-- Witness for C6 at exit code 1 with an existing error log. -/
theorem c6_witness :
    [REvent.failRender,
     REvent.sendDocument (errorLogChoice true true buildLogName) Chat.error,
     REvent.exitProc 1] <:+ runnerRun true [] 1 true buildLogName ∧
    [REvent.failRender,
     REvent.sendDocument (if true then outErrorLog else buildLogName) Chat.error,
     REvent.exitProc 1] <:+ botRun [] 1 true :=
  c6_failure_reporting true [] 1 true buildLogName (by decide)

/-- C7 counterexample: on the build-bot.py entry point the interrupt path is
the bare KeyboardInterrupt guard, which neither terminates nor kills the
child process. -/
theorem c7_counterexample :
    HandlerAction.terminateChild ∉ buildBotInterruptActions ∧
    HandlerAction.killChild ∉ buildBotInterruptActions := by
  decide

/-- C7 (amended): the handler installed by utils.register_signal_handler
performs no remote update, always exits with code 0, and, when a live child
exists, terminates it first and kills it exactly when it is still alive
after the grace sleep, in that order; the build-bot.py guard also performs
no remote update but never touches the child. -/
theorem c7_interrupt_behavior (e a1 a2 : Bool) :
    HandlerAction.remoteEdit ∉ sigintHandlerActions e a1 a2 ∧
    HandlerAction.exitProgram 0 ∈ sigintHandlerActions e a1 a2 ∧
    (e = true → a1 = true →
      HandlerAction.terminateChild ∈ sigintHandlerActions e a1 a2 ∧
      (HandlerAction.killChild ∈ sigintHandlerActions e a1 a2 ↔ a2 = true) ∧
      sigintHandlerActions e a1 a2 =
        HandlerAction.printNote :: HandlerAction.terminateChild ::
          HandlerAction.graceSleep ::
          (if a2 then [HandlerAction.killChild] else []) ++
          [HandlerAction.exitProgram 0]) ∧
    HandlerAction.remoteEdit ∉ buildBotInterruptActions := by
  cases e <;> cases a1 <;> cases a2 <;> decide

/-- Witness for C7 with an existing, stubborn child process. -/
theorem c7_witness :
    HandlerAction.terminateChild ∈ sigintHandlerActions true true true ∧
    (HandlerAction.killChild ∈ sigintHandlerActions true true true ↔ true = true) :=
  ⟨((c7_interrupt_behavior true true true).2.2.1 rfl rfl).1,
   ((c7_interrupt_behavior true true true).2.2.1 rfl rfl).2.1⟩

/-- C8 counterexample: build-rom.py interpolates its static info values raw;
with a device value carrying markup, the rendered block contains the raw
value and not its escaped form. -/
theorem c8_counterexample :
    substrIn markupDeviceEscaped
      (buildRomBaseInfo sampleRomName markupDevice sampleAndroid sampleBuildId
        sampleVariant) = false ∧
    substrIn markupDeviceRawSpan
      (buildRomBaseInfo sampleRomName markupDevice sampleAndroid sampleBuildId
        sampleVariant) = true := by
  decide

/-- C8 (amended): every value rendered through the shared line helper passes
through html.escape, whose output contains no angle bracket, so such values
cannot corrupt the markup; the static info block of build-rom.py, in
contrast, interpolates its five values without escaping. -/
theorem c8_escaping (label v : List Char) :
    line label v = lineT1 ++ label ++ lineT2 ++ htmlEscape v ++ lineT3 ∧
    '<' ∉ htmlEscape v ∧ '>' ∉ htmlEscape v ∧
    (∀ r d a b t : List Char, buildRomBaseInfo r d a b t =
      romT1 ++ r ++ romT2 ++ d ++ romT3 ++ a ++ romT4 ++ b ++ romT5 ++ t ++ romT6) :=
  ⟨rfl, htmlEscape_no_lt v, htmlEscape_no_gt v, fun _ _ _ _ _ => rfl⟩

/-- Witness for C8 on a concrete markup-bearing value. -/
theorem c8_witness :
    '<' ∉ htmlEscape markupDevice ∧ '>' ∉ htmlEscape markupDevice :=
  ⟨(c8_escaping sampleRomName markupDevice).2.1,
   (c8_escaping sampleRomName markupDevice).2.2.1⟩

/-- C9 counterexample: the upload_pd of build-bot.py issues its request with
no timeout, and reports failure as the sentinel string, not as an absent
result. -/
theorem c9_counterexample :
    ((buildBotUploadPd sampleZipPath none).1.all fun c => c.timeout.isSome) = false ∧
    (buildBotUploadPd sampleZipPath none).2 = uploadFailedStr := by
  decide

/-- C9 (amended): utils.upload_pd bounds its request at 300 seconds and
reports every failure as an absent result; utils.upload_gofile leaves its
server-discovery request unbounded; build-bot.py upload_pd sets no timeout
and reports failure as the sentinel string.  No provider raises. -/
theorem c9_provider_calls (api : Option (List Char)) (path : List Char)
    (resp : Option (Nat × List Char)) :
    (∀ c ∈ (utilsUploadPd api path resp).1, c.timeout = some 300) ∧
    ((utilsUploadPd api path none).2 = none) ∧
    (∀ s fid, s ≠ 200 → s ≠ 201 → (utilsUploadPd api path (some (s, fid))).2 = none) ∧
    (∀ sr ur, ((utilsUploadGofile sr ur).1.head?.map HttpCall.timeout) = some none) ∧
    (∀ ur, (utilsUploadGofile none ur).2 = none) ∧
    (∀ c ∈ (buildBotUploadPd path resp).1, c.timeout = none) ∧
    ((buildBotUploadPd path none).2 = uploadFailedStr) ∧
    (∀ s fid, s ≠ 200 → (buildBotUploadPd path (some (s, fid))).2 = uploadFailedStr) := by
  refine ⟨?_, ?_, ?_, ?_, ?_, ?_, ?_, ?_⟩
  · rcases api with _ | a
    · simp [utilsUploadPd]
    · rcases resp with _ | ⟨s, fid⟩
      · simp [utilsUploadPd]
      · by_cases hs : s = 200 ∨ s = 201 <;> simp [utilsUploadPd, hs]
  · rcases api with _ | a <;> simp [utilsUploadPd]
  · intro s fid hs1 hs2
    rcases api with _ | a <;> simp [utilsUploadPd, hs1, hs2]
  · intro sr ur
    rcases sr with _ | ⟨ok, server⟩
    · simp [utilsUploadGofile]
    · by_cases hok : ok = false
      · simp [utilsUploadGofile, hok]
      · rcases ur with _ | ⟨s, page⟩
        · simp [utilsUploadGofile, hok]
        · by_cases hs : s = 200 <;> simp [utilsUploadGofile, hok, hs]
  · intro ur
    simp [utilsUploadGofile]
  · rcases resp with _ | ⟨s, fid⟩
    · simp [buildBotUploadPd]
    · by_cases hs : s = 200 <;> simp [buildBotUploadPd, hs]
  · simp [buildBotUploadPd]
  · intro s fid hs
    simp [buildBotUploadPd, hs]

/-- Witness for C9 at a concrete failing status. -/
theorem c9_witness :
    (utilsUploadPd (some sampleApiKey) sampleZipPath (some (500, sampleFid))).2 = none ∧
    (buildBotUploadPd sampleZipPath (some (500, sampleFid))).2 = uploadFailedStr :=
  ⟨(c9_provider_calls (some sampleApiKey) sampleZipPath
      (some (500, sampleFid))).2.2.1 500 sampleFid (by decide) (by decide),
   (c9_provider_calls (some sampleApiKey) sampleZipPath
      (some (500, sampleFid))).2.2.2.2.2.2.2 500 sampleFid (by decide)⟩

/-- C10: calling the document-sending helper on a path that does not exist
issues no request at all, in utils.py and in build-bot.py alike; the model
is a total function, so nothing is raised. -/
theorem c10_send_doc_missing (ex : List Char → Bool) (chatId : Option (List Char))
    (path : List Char) (hex : ex path = false) :
    utilsSendDoc ex chatId path = [] ∧ buildBotSendDoc ex path = [] := by
  constructor
  · rcases chatId with _ | c <;> simp [utilsSendDoc, hex]
  · simp [buildBotSendDoc, hex]

/-- Witness for C10 with an always-missing file. -/
theorem c10_witness :
    utilsSendDoc (fun _ => false) (some sampleChatId) sampleZipPath = [] ∧
    buildBotSendDoc (fun _ => false) sampleZipPath = [] :=
  c10_send_doc_missing (fun _ => false) (some sampleChatId) sampleZipPath rfl

/-- C5: when exactly one provider yields a link for the existing primary
artifact, upload_artifacts reports overall success, the final render carries
the button row of the primary artifact, and that row holds exactly one link.
The provider oracles are unrestricted on every other file, so a secondary
artifact failing on all providers (or succeeding) never changes this
outcome, and the two provider results for one file are collected
independently of each other. -/
theorem c5_upload_aggregation (pdF gfF : String → Option String) (ex : String → Bool)
    (pre post : List (String × String)) (label finalZip : String)
    (hz : finalZip ≠ "") (hex : ex finalZip = true)
    (hxor : (pdF finalZip).isSome ≠ (gfF finalZip).isSome) :
    ∃ bl, upload_artifacts pdF gfF ex true (pre ++ (label, finalZip) :: post) finalZip
        = UploadOutcome.finalMsg (some bl) ∧
      providerRow pdF gfF true label finalZip ∈ bl ∧
      (providerRow pdF gfF true label finalZip).length = 1 := by
  have hrowlen : (providerRow pdF gfF true label finalZip).length = 1 := by
    unfold providerRow rowOf uploadAll
    rcases hpd : pdF finalZip with _ | u <;> rcases hgf : gfF finalZip with _ | v <;>
      simp [hpd, hgf] at hxor ⊢
  have hstep : ∀ st : UpAcc, uploadStep pdF gfF ex true finalZip st (label, finalZip) =
      ⟨st.buttons ++ [providerRow pdF gfF true label finalZip], true⟩ := by
    intro st
    unfold uploadStep providerRow rowOf uploadAll
    rcases hpd : pdF finalZip with _ | u <;> rcases hgf : gfF finalZip with _ | v <;>
      simp [hpd, hgf, hz, hex] at hxor ⊢
  have hsplit : (pre ++ (label, finalZip) :: post).foldl
        (uploadStep pdF gfF ex true finalZip) ⟨[], false⟩
      = post.foldl (uploadStep pdF gfF ex true finalZip)
          (uploadStep pdF gfF ex true finalZip
            (pre.foldl (uploadStep pdF gfF ex true finalZip) ⟨[], false⟩)
            (label, finalZip)) := by
    rw [List.foldl_append, List.foldl_cons]
  have hst1 := hstep (pre.foldl (uploadStep pdF gfF ex true finalZip) ⟨[], false⟩)
  obtain ⟨ext, hext⟩ := uploadFold_buttonsExt pdF gfF ex true finalZip post
    ⟨(pre.foldl (uploadStep pdF gfF ex true finalZip) ⟨[], false⟩).buttons ++
      [providerRow pdF gfF true label finalZip], true⟩
  have hmain := uploadFold_mainMono pdF gfF ex true finalZip post
    ⟨(pre.foldl (uploadStep pdF gfF ex true finalZip) ⟨[], false⟩).buttons ++
      [providerRow pdF gfF true label finalZip], true⟩ rfl
  refine ⟨(post.foldl (uploadStep pdF gfF ex true finalZip)
      ⟨(pre.foldl (uploadStep pdF gfF ex true finalZip) ⟨[], false⟩).buttons ++
        [providerRow pdF gfF true label finalZip], true⟩).buttons, ?_, ?_, hrowlen⟩
  · unfold upload_artifacts
    rw [hsplit, hst1]
    rw [if_neg (by rw [hmain]; exact fun h => Bool.true_eq_false.mp h)]
    rw [if_neg (by rw [hext]; simp)]
  · rw [hext]
    simp

/-- Witness for C5: PixelDrain succeeds on the primary artifact, GoFile
fails everywhere, and the secondary recovery artifact fails on all
providers. -/
theorem c5_witness :
    (romZipName ≠ "" ∧ wEx romZipName = true ∧
      (wPd romZipName).isSome ≠ (wGf romZipName).isSome) ∧
    (∃ bl, upload_artifacts wPd wGf wEx true
        ([] ++ (downloadLabel, romZipName) :: [(recoveryLabel, recZipName)]) romZipName
        = UploadOutcome.finalMsg (some bl) ∧
      providerRow wPd wGf true downloadLabel romZipName ∈ bl ∧
      (providerRow wPd wGf true downloadLabel romZipName).length = 1) :=
  ⟨⟨by decide, rfl, by decide⟩,
   c5_upload_aggregation wPd wGf wEx [] [(recoveryLabel, recZipName)]
     downloadLabel romZipName (by decide) rfl (by decide)⟩

end BuildBot
